import Mathlib

/-!
# Verification of the homework status bot (`homework.py`, `exceptions.py`)

A shallow embedding of the bot's pure logic. Python values are modelled by
`PyVal`, Python exceptions by `PyError`, and `str.format` by `pyFormat` over
template parts (`FmtPart`). The side-effecting boundary (HTTP request,
Telegram transport, clock sleep) is modelled by explicit inputs
(`HttpOutcome`, per-cycle transport outcomes in `CycleEnv`) and an event
trace (`Event`).

Faithfulness notes on Python semantics that matter below:
* `'{name}'.format(x)` with a positional argument does **not** fill a named
  placeholder: it raises `KeyError('name')`. `pyFormat` reproduces this.
* `str(KeyError(m))` is `repr(m)`, i.e. the message wrapped in quotes;
  `errStr` reproduces this.
* `key in x` raises `TypeError` when `x` is not a container (`pyContains`),
  and `x[key]` with a string key raises `TypeError` on lists (`pyIndex`).
-/

namespace HomeworkBot

/-- Python values as they occur in API responses: `None`, ints, strings,
lists and string-keyed dicts. -/
inductive PyVal where
  | none : PyVal
  | int (n : Int) : PyVal
  | str (s : String) : PyVal
  | list (xs : List PyVal) : PyVal
  | dict (entries : List (String × PyVal)) : PyVal
deriving Repr

/-- The exception kinds raised by the program: the classes of
`exceptions.py` (`TelegramSendError`, `InvalidResponseCodeError`; the
imported `StatusCodeError` is modelled as its own kind) and the Python
builtins the code raises or triggers. -/
inductive PyError where
  | connectionError (msg : String)
  | statusCodeError (msg : String)
  | invalidResponseCodeError (msg : String)
  | typeError (msg : String)
  | keyError (msg : String)
  | valueError (msg : String)
  | indexError (msg : String)
  | telegramSendError (msg : String)
deriving DecidableEq, Repr

/-- `str(e)` for the exceptions above. Python renders `KeyError(m)` as
`repr(m)` (the message in quotes); every other class renders its message. -/
def errStr : PyError → String
  | .keyError m => "'" ++ m ++ "'"
  | .connectionError m => m
  | .statusCodeError m => m
  | .invalidResponseCodeError m => m
  | .typeError m => m
  | .valueError m => m
  | .indexError m => m
  | .telegramSendError m => m

mutual
/-- Python `repr` of a value (used by `str.format` on non-string values
and by `str()` of dicts). -/
def pyRepr : PyVal → String
  | .none => "None"
  | .int n => toString n
  | .str s => "'" ++ s ++ "'"
  | .list xs => "[" ++ String.intercalate ", " (pyReprList xs) ++ "]"
  | .dict es => "\x7b" ++ String.intercalate ", " (pyReprEntries es) ++ "\x7d"

def pyReprList : List PyVal → List String
  | [] => []
  | x :: xs => pyRepr x :: pyReprList xs

def pyReprEntries : List (String × PyVal) → List String
  | [] => []
  | (k, v) :: es => ("'" ++ k ++ "': " ++ pyRepr v) :: pyReprEntries es
end

/-- Python `str` of a value: strings render bare, containers and the rest
render as their `repr`. -/
def pyStr : PyVal → String
  | .str s => s
  | v => pyRepr v

/-- `str(type(x))`, as interpolated by `'...{type}'.format(type=type(x))`. -/
def pyTypeName : PyVal → String
  | .none => "<class 'NoneType'>"
  | .int _ => "<class 'int'>"
  | .str _ => "<class 'str'>"
  | .list _ => "<class 'list'>"
  | .dict _ => "<class 'dict'>"

/-- The bare type name, as used in `TypeError` messages of `in`. -/
def pyShortTypeName : PyVal → String
  | .none => "NoneType"
  | .int _ => "int"
  | .str _ => "str"
  | .list _ => "list"
  | .dict _ => "dict"

/-- First-match lookup in a string-keyed dict. -/
def pyLookup : List (String × PyVal) → String → Option PyVal
  | [], _ => Option.none
  | (k, v) :: es, key => if k = key then Option.some v else pyLookup es key

/-- Lookup in a string-to-string association list (for format kwargs and
`HOMEWORK_VERDICTS`). -/
def strLookup : List (String × String) → String → Option String
  | [], _ => Option.none
  | (k, v) :: es, key => if k = key then Option.some v else strLookup es key

/-- Python `key in x` for a string `key`: dict key membership, list element
membership, substring test on strings; `TypeError` on non-containers. -/
def pyContains (x : PyVal) (key : String) : Except PyError Bool :=
  match x with
  | .dict es => .ok (pyLookup es key).isSome
  | .list xs => .ok (xs.any fun v => match v with | .str s => s = key | _ => false)
  | .str s => .ok (if key.isEmpty then true else (s.splitOn key).length ≠ 1)
  | v => .error (.typeError
      ("argument of type '" ++ pyShortTypeName v ++ "' is not iterable"))

/-- Python `x[key]` for a string `key`: dict indexing (`KeyError` when the
key is absent), `TypeError` on lists, strings and the rest. -/
def pyIndex (x : PyVal) (key : String) : Except PyError PyVal :=
  match x with
  | .dict es =>
    match pyLookup es key with
    | Option.some v => .ok v
    | Option.none => .error (.keyError key)
  | .list _ => .error (.typeError "list indices must be integers or slices, not str")
  | .str _ => .error (.typeError "string indices must be integers")
  | v => .error (.typeError
      ("'" ++ pyShortTypeName v ++ "' object is not subscriptable"))

/-- Python `d.get(key, default)` on a dict. -/
def pyGet (x : PyVal) (key : String) (default : PyVal) : PyVal :=
  match x with
  | .dict es =>
    match pyLookup es key with
    | Option.some v => v
    | Option.none => default
  | _ => default

/-- A piece of a `str.format` template: literal text, an auto-numbered
positional field, or a named field. -/
inductive FmtPart where
  | lit (s : String)
  | auto
  | named (name : String)
deriving DecidableEq, Repr

/-- The worker of `pyFormat`: walks the template, consuming positional
arguments for auto fields and looking named fields up among the keyword
arguments. As in Python, a named field with no matching keyword raises
`KeyError(name)`, and an auto field with no positional argument left
raises `IndexError`. -/
def pyFormatGo : List FmtPart → List String → List (String × String) → String →
    Except PyError String
  | [], _, _, acc => .ok acc
  | .lit s :: ps, pos, kw, acc => pyFormatGo ps pos kw (acc ++ s)
  | .auto :: ps, pos, kw, acc =>
    match pos with
    | [] => .error (.indexError "Replacement index 0 out of range for positional args tuple")
    | a :: rest => pyFormatGo ps rest kw (acc ++ a)
  | .named n :: ps, pos, kw, acc =>
    match strLookup kw n with
    | Option.some v => pyFormatGo ps pos kw (acc ++ v)
    | Option.none => .error (.keyError n)

/-- Python `template.format(*pos, **kw)`. -/
def pyFormat (parts : List FmtPart) (pos : List String)
    (kw : List (String × String)) : Except PyError String :=
  pyFormatGo parts pos kw ""

/-! ## Module-level constants of `homework.py` -/

def RETRY_PERIOD : Nat := 600

def ENDPOINT : String := "https://practicum.yandex.ru/api/user_api/homework_statuses/"

/-- `HOMEWORK_VERDICTS`. -/
def HOMEWORK_VERDICTS : List (String × String) :=
  [("approved", "Работа проверена: ревьюеру всё понравилось. Ура!"),
   ("reviewing", "Работа взята на проверку ревьюером."),
   ("rejected", "Работа проверена: у ревьюера есть замечания.")]

/-- `STATUS_ERROR` template. -/
def STATUS_ERROR : List FmtPart :=
  [.lit "Ошибка соединения, статус: ", .named "status",
   .lit " Причина: ", .named "reason", .lit ", ", .named "text",
   .lit " endpoint: ", .named "url", .lit ", headers: ", .named "headers",
   .lit " params: ", .named "params"]

/-- `KEY_ERROR` template. -/
def KEY_ERROR : List FmtPart :=
  [.lit "Отказ от обслуживания: ", .named "error", .lit ", key ", .named "key",
   .lit ". endpoint: ", .named "url", .lit ", headers: ", .named "headers",
   .lit " params: ", .named "params"]

/-- `CONNECT_ERROR` template. -/
def CONNECT_ERROR : List FmtPart :=
  [.lit "Ошибка ", .named "error", .lit " подключения к ", .named "url",
   .lit ". UNIX время в запросе: ", .named "params", .lit "."]

/-- `CHANGED_STATUS` template. -/
def CHANGED_STATUS : List FmtPart :=
  [.lit "Изменился статус проверки работы \"", .named "homework_name",
   .lit "\". ", .named "verdicts"]

/-- `ERROR_MESSAGE` template: one auto-numbered positional field. -/
def ERROR_MESSAGE : List FmtPart :=
  [.lit "Сбой в работе программы: ", .auto]

/-- `SEND_MESSAGE_ERROR` template. -/
def SEND_MESSAGE_ERROR : List FmtPart :=
  [.lit "Ошибка при отправке сообщения: ", .named "message",
   .lit ". ", .named "error"]

/-- `ERROR_NOT_DICT` template. -/
def ERROR_NOT_DICT : List FmtPart :=
  [.lit "Ответ вернул не словарь, а ", .named "type"]

/-- `ERROR_NOT_LIST` template. -/
def ERROR_NOT_LIST : List FmtPart :=
  [.lit "Ошибка: домашка - не список, а ", .named "type"]

/-- `ERROR_STATUS` template: a single **named** field `status`. The code
calls `ERROR_STATUS.format(status)` with a positional argument, so the
call raises `KeyError('status')`. -/
def ERROR_STATUS : List FmtPart :=
  [.lit "Неизвестный статус работы: ", .named "status"]

/-! ## `check_response` and `parse_status` -/

/-- `check_response(response)`: requires a dict with a `homeworks` key
holding a list; returns that list. -/
def check_response (response : PyVal) : Except PyError (List PyVal) :=
  match response with
  | .dict es =>
    match pyLookup es "homeworks" with
    | Option.none => .error (.keyError "Отсутствует ключ homeworks.")
    | Option.some homeworks =>
      match homeworks with
      | .list xs => .ok xs
      | hw =>
        match pyFormat ERROR_NOT_LIST [] [("type", pyTypeName hw)] with
        | .ok m => .error (.typeError m)
        | .error e => .error e
  | r =>
    match pyFormat ERROR_NOT_DICT [] [("type", pyTypeName r)] with
    | .ok m => .error (.typeError m)
    | .error e => .error e

/-- Membership of a value among the keys of `HOMEWORK_VERDICTS`, following
Python dict membership: unhashable values (lists, dicts) raise `TypeError`;
hashable non-strings are simply not keys. Returns the key when the status
is a recognized string key. -/
def verdictsKey (status : PyVal) : Except PyError (Option String) :=
  match status with
  | .list _ => .error (.typeError "unhashable type: 'list'")
  | .dict _ => .error (.typeError "unhashable type: 'dict'")
  | .str s => .ok (if (strLookup HOMEWORK_VERDICTS s).isSome then Option.some s else Option.none)
  | _ => .ok Option.none

/-- `parse_status(homework)`: checks the `homework_name` and `status` keys,
then renders the verdict sentence. With an unrecognized status the code
evaluates `ERROR_STATUS.format(status)` — a positional argument against a
named placeholder — so that expression itself raises before the intended
`ValueError` is constructed. -/
def parse_status (homework : PyVal) : Except PyError String :=
  match pyContains homework "homework_name" with
  | .error e => .error e
  | .ok false => .error (.keyError "Отсутствует ключ \"homework_name\" в ответе API")
  | .ok true =>
    match pyContains homework "status" with
    | .error e => .error e
    | .ok false => .error (.keyError "Отсутствует ключ \"status\" в ответе API")
    | .ok true =>
      match pyIndex homework "status" with
      | .error e => .error e
      | .ok status =>
        match verdictsKey status with
        | .error e => .error e
        | .ok Option.none =>
          match pyFormat ERROR_STATUS [pyStr status] [] with
          | .ok m => .error (.valueError m)
          | .error e => .error e
        | .ok (Option.some k) =>
          match strLookup HOMEWORK_VERDICTS k with
          | Option.none => .error (.keyError k)
          | Option.some verdict =>
            match pyFormat CHANGED_STATUS []
                [("homework_name", pyStr (pyGet homework "homework_name" PyVal.none)),
                 ("verdicts", verdict)] with
            | .ok m => .ok m
            | .error e => .error e

/-! ## `get_api_answer` -/

/-- The outcome of the single `requests.get` call of a cycle: either the
request machinery raised a `RequestException`, or a response arrived with a
status code, reason phrase, body text, and parsed JSON body. -/
inductive HttpOutcome where
  | requestException (err : String)
  | response (statusCode : Nat) (reason : String) (text : String) (json : PyVal)

/-- `str(HEADERS)`: the headers dict built from the `PRACTICUM_TOKEN`
environment value, as it is interpolated into error messages. -/
def headersStr (token : String) : String :=
  "\x7b'Authorization': 'OAuth " ++ token ++ "'\x7d"

/-- `str({'from_date': timestamp})`: the request params dict as it is
interpolated into error messages. -/
def paramsStr (timestamp : PyVal) : String :=
  "\x7b'from_date': " ++ pyRepr timestamp ++ "\x7d"

/-- The `**parameters` keyword arguments shared by the error templates of
`get_api_answer`. -/
def requestKwargs (token : String) (timestamp : PyVal) : List (String × String) :=
  [("url", ENDPOINT), ("headers", headersStr token), ("params", paramsStr timestamp)]

/-- One step of the `for key in ('error', 'code')` loop of
`get_api_answer`: raise `InvalidResponseCodeError` when `key` is present
in the JSON body. Returns `true` when the key was absent and the loop
continues. -/
def serviceDenialCheck (token : String) (timestamp : PyVal) (json : PyVal)
    (key : String) : Except PyError Bool :=
  match pyContains json key with
  | .error e => .error e
  | .ok false => .ok true
  | .ok true =>
    match pyIndex json key with
    | .error e => .error e
    | .ok v =>
      match pyFormat KEY_ERROR []
          ([("error", pyStr v), ("key", key)] ++ requestKwargs token timestamp) with
      | .ok m => .error (.invalidResponseCodeError m)
      | .error e => .error e

/-- `get_api_answer(timestamp)`, with the HTTP side effect passed in as an
`HttpOutcome`. A `RequestException` becomes a `ConnectionError`; a non-200
status becomes a `StatusCodeError`; an `error` or `code` key in the JSON
body becomes an `InvalidResponseCodeError`; otherwise the parsed JSON body
is returned. -/
def get_api_answer (token : String) (timestamp : PyVal) (http : HttpOutcome) :
    Except PyError PyVal :=
  match http with
  | .requestException err =>
    match pyFormat CONNECT_ERROR []
        (requestKwargs token timestamp ++ [("error", err)]) with
    | .ok m => .error (.connectionError m)
    | .error e => .error e
  | .response statusCode reason text json =>
    if statusCode ≠ 200 then
      match pyFormat STATUS_ERROR []
          ([("status", toString statusCode), ("reason", reason), ("text", text)]
            ++ requestKwargs token timestamp) with
      | .ok m => .error (.statusCodeError m)
      | .error e => .error e
    else
      match serviceDenialCheck token timestamp json "error" with
      | .error e => .error e
      | .ok _ =>
        match serviceDenialCheck token timestamp json "code" with
        | .error e => .error e
        | .ok _ => .ok json

/-! ## `send_message` and the main loop -/

/-- Observable actions of a cycle: a log record, an invocation of
`bot.send_message` with the message text, and `time.sleep(seconds)`. -/
inductive Event where
  | log (s : String)
  | botSend (text : String)
  | sleep (seconds : Nat)
deriving DecidableEq, Repr

/-- `send_message(bot, message)`, with the Telegram transport outcome
passed in: `Option.some err` means `bot.send_message` raised
`telegram.error.TelegramError(err)`. On transport failure the function
logs and raises `TelegramSendError` with the formatted message (the
keyword-argument `format` call here succeeds). -/
def send_message (transportError : Option String) (message : String) :
    Except PyError Unit × List Event :=
  let attempt := [Event.log "Отправка сообщения в Телеграм.", Event.botSend message]
  match transportError with
  | Option.none => (.ok (), attempt)
  | Option.some err =>
    match pyFormat SEND_MESSAGE_ERROR [] [("message", message), ("error", err)] with
    | .ok m => (.error (.telegramSendError m), attempt ++ [Event.log m])
    | .error e => (.error e, attempt)

/-- The external behaviour driving one iteration of the `while True` loop:
the HTTP outcome of its `requests.get`, and the Telegram transport outcome
at each of the two possible `send_message` call sites (the status
notification inside the `try`, and the error notification inside the
`except` handler). -/
structure CycleEnv where
  http : HttpOutcome
  statusSend : Option String
  errorSend : Option String

/-- The `try` block of one loop iteration: fetch, validate, and for a
non-empty homework list render and send the status of the first homework,
then advance the timestamp to the response's `current_date` (keeping the
old value when the key is absent). An empty list hits `continue`, skipping
the timestamp update. Returns the timestamp for the next iteration, or
the exception that escaped the block. -/
def cycleTry (token : String) (timestamp : PyVal) (env : CycleEnv) :
    Except PyError PyVal × List Event :=
  match get_api_answer token timestamp env.http with
  | .error e => (.error e, [])
  | .ok response =>
    match check_response response with
    | .error e => (.error e, [])
    | .ok homeworks =>
      match homeworks with
      | [] => (.ok timestamp, [])
      | hw :: _ =>
        match parse_status hw with
        | .error e => (.error e, [])
        | .ok verdict =>
          match send_message env.statusSend verdict with
          | (.error e, evs) => (.error e, evs)
          | (.ok _, evs) => (.ok (pyGet response "current_date" timestamp), evs)

/-- How one loop iteration ends: continue with the next timestamp, or let
an exception escape `main` (terminating the process). -/
inductive CycleOut where
  | next (timestamp : PyVal)
  | crash (e : PyError)
deriving Repr

/-- One full iteration of the `while True` loop: the `try` block, the
`except Exception` handler (log, then attempt an error notification whose
own failure is handled by `logging.error(SEND_MESSAGE_ERROR.format(error))`
— a positional argument against named placeholders, so that logging call
itself raises `KeyError('message')`), and the `finally` sleep. -/
def runCycle (token : String) (timestamp : PyVal) (env : CycleEnv) :
    CycleOut × List Event :=
  match cycleTry token timestamp env with
  | (.ok ts, evs) => (.next ts, evs ++ [Event.sleep RETRY_PERIOD])
  | (.error e, evs) =>
    match pyFormat ERROR_MESSAGE [errStr e] [] with
    | .error e2 => (.crash e2, evs ++ [Event.sleep RETRY_PERIOD])
    | .ok message =>
      let evs := evs ++ [Event.log message]
      match send_message env.errorSend message with
      | (.ok _, evs2) => (.next timestamp, evs ++ evs2 ++ [Event.sleep RETRY_PERIOD])
      | (.error err2, evs2) =>
        match pyFormat SEND_MESSAGE_ERROR [errStr err2] [] with
        | .error e3 => (.crash e3, evs ++ evs2 ++ [Event.sleep RETRY_PERIOD])
        | .ok logMsg =>
          (.next timestamp, evs ++ evs2 ++ [Event.log logMsg, Event.sleep RETRY_PERIOD])

/-- A run of successive loop iterations driven by a list of per-cycle
environments, starting from `timestamp`. Stops early when an iteration
crashes. Returns the final timestamp, the concatenated event trace, and
the escaped exception if any. -/
def runCycles (token : String) (timestamp : PyVal) :
    List CycleEnv → PyVal × List Event × Option PyError
  | [] => (timestamp, [], Option.none)
  | env :: rest =>
    match runCycle token timestamp env with
    | (.crash e, evs) => (timestamp, evs, Option.some e)
    | (.next ts, evs) =>
      match runCycles token ts rest with
      | (tsF, evsR, c) => (tsF, evs ++ evsR, c)

/-! ## Auxiliary definitions for the statements -/

/-- Recognizes a `time.sleep` event. -/
def isSleep : Event → Bool
  | .sleep _ => true
  | _ => false

/-- Recognizes an invocation of `bot.send_message`. -/
def isBotSend : Event → Bool
  | .botSend _ => true
  | _ => false

/-- Modelled from the spec (for the refinement claim about
`check_response`): fails with a type-mismatch error naming the actual type
when the response is not a mapping; with a missing-key error when the
mapping lacks a `homeworks` entry; with a type-mismatch error naming the
actual type when the `homeworks` value is not a list; otherwise returns
the `homeworks` list unchanged (which may be empty). -/
def check_response_spec (response : PyVal) : Except PyError (List PyVal) :=
  match response with
  | .dict es =>
    match pyLookup es "homeworks" with
    | Option.none => .error (.keyError "Отсутствует ключ homeworks.")
    | Option.some (.list xs) => .ok xs
    | Option.some hw =>
      .error (.typeError ("Ошибка: домашка - не список, а " ++ pyTypeName hw))
  | r => .error (.typeError ("Ответ вернул не словарь, а " ++ pyTypeName r))

/-- A cycle environment whose fetch raises a `RequestException` and whose
Telegram transport works: the `except` handler notifies successfully. -/
def failingFetchEnv : CycleEnv :=
  ⟨.requestException "boom", Option.none, Option.none⟩

/-- The error text rendered (and sent) by a cycle run as
`runCycle "t" (.int 0) failingFetchEnv`. -/
def failingFetchText : String :=
  "Сбой в работе программы: Ошибка boom подключения к https://practicum.yandex.ru/api/user_api/homework_statuses/. UNIX время в запросе: \x7b'from_date': 0\x7d."

/-- A cycle environment with a successful fetch whose response has an
empty `homeworks` list and a `current_date` key. -/
def emptyListEnv : CycleEnv :=
  ⟨.response 200 "OK" ""
     (.dict [("homeworks", .list []), ("current_date", .int 1700000000)]),
   Option.none, Option.none⟩

/-- A well-formed homework record with a recognized status. -/
def goodHomework : PyVal :=
  .dict [("homework_name", .str "hw"), ("status", .str "approved")]

/-- A cycle environment with a fully successful cycle whose server-reported
`current_date` (0) is smaller than any positive watermark. -/
def backwardsDateEnv : CycleEnv :=
  ⟨.response 200 "OK" ""
     (.dict [("homeworks", .list [goodHomework]), ("current_date", .int 0)]),
   Option.none, Option.none⟩

/-- A cycle environment whose fetch raises and whose Telegram transport is
down, so the error-notification `send_message` in the handler also fails. -/
def brokenChannelEnv : CycleEnv :=
  ⟨.requestException "boom", Option.none, Option.some "telegram down"⟩

/-- A cycle environment with a fully successful cycle: one homework record
with a recognized status, a working transport, and `current_date` present. -/
def successEnv : CycleEnv :=
  ⟨.response 200 "OK" ""
     (.dict [("homeworks", .list [goodHomework]), ("current_date", .int 1700000000)]),
   Option.none, Option.none⟩

/-! ## Helper lemmas -/

/-- `ERROR_MESSAGE.format(err)` succeeds: the template's only field is the
auto-numbered positional one. -/
theorem pyFormat_ERROR_MESSAGE (s : String) :
    pyFormat ERROR_MESSAGE [s] [] = .ok ("Сбой в работе программы: " ++ s) := rfl

/-- `SEND_MESSAGE_ERROR.format(err)` with a positional argument raises
`KeyError('message')`: the template's fields are named. -/
theorem pyFormat_SEND_MESSAGE_ERROR_positional (s : String) :
    pyFormat SEND_MESSAGE_ERROR [s] [] = .error (.keyError "message") := rfl

/-- `SEND_MESSAGE_ERROR.format(message=m, error=e)` succeeds. -/
theorem pyFormat_SEND_MESSAGE_ERROR_kw (m e : String) :
    pyFormat SEND_MESSAGE_ERROR [] [("message", m), ("error", e)] =
      .ok ("Ошибка при отправке сообщения: " ++ m ++ ". " ++ e) := rfl

/-- `send_message` never sleeps. -/
theorem send_message_filter_sleep (tr : Option String) (m : String) :
    ((send_message tr m).2).filter isSleep = [] := by
  cases tr <;> rfl

/-- The `try` block of a cycle never sleeps. -/
theorem cycleTry_filter_sleep (token : String) (ts : PyVal) (env : CycleEnv) :
    ((cycleTry token ts env).2).filter isSleep = [] := by
  cases hga : get_api_answer token ts env.http with
  | error e => simp only [cycleTry, hga]; rfl
  | ok response =>
    cases hcr : check_response response with
    | error e => simp only [cycleTry, hga, hcr]; rfl
    | ok homeworks =>
      cases homeworks with
      | nil => simp only [cycleTry, hga, hcr]; rfl
      | cons hw rest =>
        cases hps : parse_status hw with
        | error e => simp only [cycleTry, hga, hcr, hps]; rfl
        | ok verdict =>
          have hs := send_message_filter_sleep env.statusSend verdict
          cases hsm : send_message env.statusSend verdict with
          | mk r evs =>
            rw [hsm] at hs
            cases r <;> simpa [cycleTry, hga, hcr, hps, hsm] using hs

/-- On a transport failure, `send_message` raises `TelegramSendError` and
its events are the debug log, the `bot.send_message` attempt, and the
error log. -/
theorem send_message_fail (err m : String) :
    send_message (Option.some err) m =
      (.error (.telegramSendError ("Ошибка при отправке сообщения: " ++ m ++ ". " ++ err)),
       [Event.log "Отправка сообщения в Телеграм.", Event.botSend m,
        Event.log ("Ошибка при отправке сообщения: " ++ m ++ ". " ++ err)]) := rfl

/-- `ERROR_NOT_DICT.format(type=t)` succeeds. -/
theorem pyFormat_ERROR_NOT_DICT (t : String) :
    pyFormat ERROR_NOT_DICT [] [("type", t)] =
      .ok ("Ответ вернул не словарь, а " ++ t) := rfl

/-- `ERROR_NOT_LIST.format(type=t)` succeeds. -/
theorem pyFormat_ERROR_NOT_LIST (t : String) :
    pyFormat ERROR_NOT_LIST [] [("type", t)] =
      .ok ("Ошибка: домашка - не список, а " ++ t) := rfl

/-- `CHANGED_STATUS.format(homework_name=n, verdicts=v)` succeeds. -/
theorem pyFormat_CHANGED_STATUS (n v : String) :
    pyFormat CHANGED_STATUS [] [("homework_name", n), ("verdicts", v)] =
      .ok ("Изменился статус проверки работы \"" ++ n ++ "\". " ++ v) := rfl

/-- `CONNECT_ERROR.format(**parameters, error=e)` succeeds. -/
theorem pyFormat_CONNECT_ERROR (u hd p e : String) :
    pyFormat CONNECT_ERROR [] [("url", u), ("headers", hd), ("params", p), ("error", e)] =
      .ok ("Ошибка " ++ e ++ " подключения к " ++ u ++ ". UNIX время в запросе: " ++ p ++ ".") := rfl

/-- `STATUS_ERROR.format(status=.., reason=.., text=.., **parameters)` succeeds. -/
theorem pyFormat_STATUS_ERROR (st rs tx u hd p : String) :
    pyFormat STATUS_ERROR []
        [("status", st), ("reason", rs), ("text", tx), ("url", u), ("headers", hd), ("params", p)] =
      .ok ("Ошибка соединения, статус: " ++ st ++ " Причина: " ++ rs ++ ", " ++ tx ++
           " endpoint: " ++ u ++ ", headers: " ++ hd ++ " params: " ++ p) := rfl

/-- A successful `get_api_answer` returns the parsed JSON body of an
actual 200 response. -/
theorem get_api_answer_ok_shape (token : String) (ts : PyVal) (http : HttpOutcome)
    (j : PyVal) (h : get_api_answer token ts http = .ok j) :
    ∃ reason text, http = .response 200 reason text j := by
  cases http with
  | requestException err =>
    simp only [get_api_answer] at h
    split at h <;> simp at h
  | response sc reason text json =>
    simp only [get_api_answer] at h
    split at h
    · split at h <;> simp at h
    · next hne =>
      have hsc : sc = 200 := not_ne_iff.mp hne
      subst hsc
      split at h
      · simp at h
      · split at h
        · simp at h
        · injection h with h
          subst h
          exact ⟨reason, text, rfl⟩

/-- A successful `check_response` means the response was a dict whose
`homeworks` entry is the returned list. -/
theorem check_response_ok_shape (r : PyVal) (xs : List PyVal)
    (h : check_response r = .ok xs) :
    ∃ es, r = .dict es ∧ pyLookup es "homeworks" = Option.some (.list xs) := by
  cases r with
  | dict es =>
    refine ⟨es, rfl, ?_⟩
    cases hl : pyLookup es "homeworks" with
    | none => simp [check_response, hl] at h
    | some hw =>
      cases hw with
      | list ys => simp only [check_response, hl, Except.ok.injEq] at h; rw [h]
      | none => simp [check_response, hl, pyFormat_ERROR_NOT_LIST] at h
      | int n => simp [check_response, hl, pyFormat_ERROR_NOT_LIST] at h
      | str s => simp [check_response, hl, pyFormat_ERROR_NOT_LIST] at h
      | dict es2 => simp [check_response, hl, pyFormat_ERROR_NOT_LIST] at h
  | none => simp [check_response, pyFormat_ERROR_NOT_DICT] at h
  | int n => simp [check_response, pyFormat_ERROR_NOT_DICT] at h
  | str s => simp [check_response, pyFormat_ERROR_NOT_DICT] at h
  | list ys => simp [check_response, pyFormat_ERROR_NOT_DICT] at h

/-- When the `try` block of a cycle completes, the timestamp it hands to
the next iteration is either unchanged or read off the `current_date`
entry of the 200 response's JSON dict. -/
theorem cycleTry_ok_shape (token : String) (ts : PyVal) (env : CycleEnv)
    (t : PyVal) (evs : List Event) (h : cycleTry token ts env = (.ok t, evs)) :
    t = ts ∨ ∃ reason text es,
      env.http = .response 200 reason text (.dict es) ∧
      pyLookup es "current_date" = Option.some t := by
  cases hga : get_api_answer token ts env.http with
  | error e => simp [cycleTry, hga] at h
  | ok response =>
    cases hcr : check_response response with
    | error e => simp [cycleTry, hga, hcr] at h
    | ok homeworks =>
      cases homeworks with
      | nil =>
        simp only [cycleTry, hga, hcr, Prod.mk.injEq, Except.ok.injEq] at h
        exact Or.inl h.1.symm
      | cons hw rest =>
        cases hps : parse_status hw with
        | error e => simp [cycleTry, hga, hcr, hps] at h
        | ok verdict =>
          cases hsm : send_message env.statusSend verdict with
          | mk sr evs2 =>
            cases sr with
            | error e => simp [cycleTry, hga, hcr, hps, hsm] at h
            | ok u =>
              simp only [cycleTry, hga, hcr, hps, hsm, Prod.mk.injEq,
                Except.ok.injEq] at h
              obtain ⟨es, rfl, hlook⟩ := check_response_ok_shape response _ hcr
              obtain ⟨reason, text, hhttp⟩ := get_api_answer_ok_shape token ts env.http _ hga
              have hget := h.1
              simp only [pyGet] at hget
              cases hcd : pyLookup es "current_date" with
              | none => simp only [hcd] at hget; exact Or.inl hget.symm
              | some d =>
                simp only [hcd] at hget
                exact Or.inr ⟨reason, text, es, hhttp, by rw [hcd, hget]⟩

/-! ## Claims -/

/-- Claim C4: every iteration of the main loop executes the fixed
600-second sleep exactly once, on every code path — success, any raised
error, and the empty-list early `continue` — and the sleep is the last
action of the cycle, so it always happens before the next fetch. -/
theorem C4_sleep_exactly_once_per_cycle (token : String) (ts : PyVal) (env : CycleEnv) :
    ((runCycle token ts env).2).filter isSleep = [Event.sleep 600] ∧
    ((runCycle token ts env).2).getLast? = Option.some (Event.sleep 600) := by
  have hct := cycleTry_filter_sleep token ts env
  cases hc : cycleTry token ts env with
  | mk r evs0 =>
    rw [hc] at hct
    cases r with
    | ok t =>
      constructor
      · simp only [runCycle, hc, List.filter_append, hct]; rfl
      · simp only [runCycle, hc]; exact List.getLast?_concat _
    | error e =>
      cases hes : env.errorSend with
      | none =>
        constructor
        · simp only [runCycle, hc, pyFormat_ERROR_MESSAGE, hes, send_message,
            List.filter_append, hct]
          rfl
        · simp only [runCycle, hc, pyFormat_ERROR_MESSAGE, hes, send_message]
          exact List.getLast?_concat _
      | some err =>
        constructor
        · simp only [runCycle, hc, pyFormat_ERROR_MESSAGE, hes, send_message_fail,
            pyFormat_SEND_MESSAGE_ERROR_positional, List.filter_append, hct]
          rfl
        · simp only [runCycle, hc, pyFormat_ERROR_MESSAGE, hes, send_message_fail,
            pyFormat_SEND_MESSAGE_ERROR_positional]
          exact List.getLast?_concat _

/-- Claim C10: a successful cycle whose validated homework list is empty
sends no notification of any kind (the trace holds no `bot.send_message`
invocation — it is exactly the `finally` sleep) and leaves the watermark
unchanged for the next cycle, even when the response carries a
`current_date` key. -/
theorem C10_empty_list_no_send_no_advance (token : String) (ts : PyVal) (env : CycleEnv)
    (r : PyVal) (hfetch : get_api_answer token ts env.http = .ok r)
    (hcheck : check_response r = .ok []) :
    runCycle token ts env = (.next ts, [Event.sleep 600]) := by
  simp only [runCycle, cycleTry, hfetch, hcheck, List.nil_append]
  rfl

/-- Witness for C10 at a concrete response that does carry `current_date`. -/
theorem C10_empty_list_no_send_no_advance_witness :
    runCycle "t" (.int 5) emptyListEnv = (.next (.int 5), [Event.sleep 600]) :=
  C10_empty_list_no_send_no_advance "t" (.int 5) emptyListEnv
    (.dict [("homeworks", .list []), ("current_date", .int 1700000000)]) rfl rfl

/-- Claim C9: when any step of the `try` block raises, the watermark is
untouched: the cycle either continues with exactly the same timestamp, or
(when the error notification itself fails) crashes — in which case there
is no next fetch at all. In particular a `current_date` received before
the failure is never adopted. -/
theorem C9_watermark_frozen_on_failure (token : String) (ts : PyVal) (env : CycleEnv)
    (e : PyError) (evs0 : List Event)
    (h : cycleTry token ts env = (.error e, evs0)) :
    (runCycle token ts env).1 = .next ts ∨
      (runCycle token ts env).1 = .crash (.keyError "message") := by
  cases hes : env.errorSend with
  | none =>
    left
    simp only [runCycle, h, pyFormat_ERROR_MESSAGE, hes, send_message]
  | some err =>
    right
    simp only [runCycle, h, pyFormat_ERROR_MESSAGE, hes, send_message_fail,
      pyFormat_SEND_MESSAGE_ERROR_positional]

/-- Witness for C9: a failed fetch with a working notification channel
continues with the same watermark. -/
theorem C9_watermark_frozen_on_failure_witness :
    (runCycle "t" (.int 7) failingFetchEnv).1 = .next (.int 7) ∨
      (runCycle "t" (.int 7) failingFetchEnv).1 = .crash (.keyError "message") :=
  C9_watermark_frozen_on_failure "t" (.int 7) failingFetchEnv
    (.connectionError
      "Ошибка boom подключения к https://practicum.yandex.ru/api/user_api/homework_statuses/. UNIX время в запросе: \x7b'from_date': 7\x7d.")
    [] rfl

/-- Claim C7: any HTTP response with a status code other than 200 makes
`get_api_answer` fail with a `StatusCodeError` whose message carries the
status code, the reason phrase, the response body and the request
parameters; the response is never returned as a success. -/
theorem C7_non_200_is_status_code_error (token : String) (ts : PyVal)
    (sc : Nat) (reason text : String) (json : PyVal) (h : sc ≠ 200) :
    get_api_answer token ts (.response sc reason text json) =
      .error (.statusCodeError
        ("Ошибка соединения, статус: " ++ toString sc ++ " Причина: " ++ reason ++
         ", " ++ text ++ " endpoint: " ++ ENDPOINT ++ ", headers: " ++
         headersStr token ++ " params: " ++ paramsStr ts)) := by
  simp only [get_api_answer]
  rw [if_pos h]
  simp only [requestKwargs, List.cons_append, List.nil_append, pyFormat_STATUS_ERROR]

/-- Witness for C7 at status 404. -/
theorem C7_non_200_is_status_code_error_witness :
    get_api_answer "t" (.int 0) (.response 404 "Not Found" "body" (.dict [])) =
      .error (.statusCodeError
        "Ошибка соединения, статус: 404 Причина: Not Found, body endpoint: https://practicum.yandex.ru/api/user_api/homework_statuses/, headers: \x7b'Authorization': 'OAuth t'\x7d params: \x7b'from_date': 0\x7d") :=
  C7_non_200_is_status_code_error "t" (.int 0) 404 "Not Found" "body" (.dict [])
    (by decide)

/-- Claim C8: `check_response` fails exactly when the response has the
wrong shape — a type-mismatch error naming the actual type for a
non-mapping response or a non-list `homeworks` value, a missing-key error
for a mapping without `homeworks` — and otherwise returns the `homeworks`
list unchanged, including when it is empty: it agrees everywhere with the
case analysis `check_response_spec` transcribed from the specification. -/
theorem C8_check_response_shape (response : PyVal) :
    check_response response = check_response_spec response := by
  cases response with
  | dict es =>
    cases hl : pyLookup es "homeworks" with
    | none => simp only [check_response, check_response_spec, hl]
    | some hw =>
      cases hw <;>
        simp only [check_response, check_response_spec, hl,
          pyFormat_ERROR_NOT_LIST]
  | none => rfl
  | int n => rfl
  | str s => rfl
  | list ys => rfl

/-- Claim C2 (code bug): for a homework record with both keys and an
unrecognized status, `parse_status` was meant to fail with the
unknown-status `ValueError` carrying the offending value, but
`ERROR_STATUS.format(status)` fills the named placeholder positionally,
so the format call itself raises `KeyError('status')` and the offending
value never appears in any message. -/
theorem C2_unknown_status_hits_format_bug :
    parse_status (.dict [("homework_name", .str "test"), ("status", .str "test")]) =
      .error (.keyError "status") := rfl

/-- Claim C1 (counterexample): two consecutive cycles that fail with the
identical rendered error text each invoke the notifier with that text —
two invocations where the claim allows at most one, so no duplicate is
suppressed. -/
theorem C1_duplicate_error_notified_twice :
    ((runCycles "t" (.int 0) [failingFetchEnv, failingFetchEnv]).2.1.filter isBotSend =
      [Event.botSend failingFetchText, Event.botSend failingFetchText]) ∧
    (cycleTry "t" (.int 0) failingFetchEnv).1 = .error (.connectionError
      "Ошибка boom подключения к https://practicum.yandex.ru/api/user_api/homework_statuses/. UNIX время в запросе: \x7b'from_date': 0\x7d.") :=
  ⟨rfl, rfl⟩

/-- Claim C1 (amended): the loop keeps no last-sent-error state, so there
is no dedup: on every cycle whose `try` block fails, if the notification
transport works the handler logs the rendered error text and invokes the
notifier with it exactly once — regardless of whether the text equals or
differs from the previous cycle's error text. -/
theorem C1_every_failing_cycle_notifies (token : String) (ts : PyVal) (env : CycleEnv)
    (e : PyError) (evs0 : List Event)
    (h : cycleTry token ts env = (.error e, evs0))
    (hsend : env.errorSend = Option.none) :
    runCycle token ts env =
      (.next ts,
       evs0 ++ [Event.log ("Сбой в работе программы: " ++ errStr e),
                Event.log "Отправка сообщения в Телеграм.",
                Event.botSend ("Сбой в работе программы: " ++ errStr e),
                Event.sleep 600]) := by
  simp [runCycle, h, pyFormat_ERROR_MESSAGE, hsend, send_message, RETRY_PERIOD]

/-- Witness for the amended C1 at a concrete failing cycle. -/
theorem C1_every_failing_cycle_notifies_witness :
    runCycle "t" (.int 0) failingFetchEnv =
      (.next (.int 0),
       [Event.log failingFetchText,
        Event.log "Отправка сообщения в Телеграм.",
        Event.botSend failingFetchText,
        Event.sleep 600]) :=
  C1_every_failing_cycle_notifies "t" (.int 0) failingFetchEnv
    (.connectionError
      "Ошибка boom подключения к https://practicum.yandex.ru/api/user_api/homework_statuses/. UNIX время в запросе: \x7b'from_date': 0\x7d.")
    [] rfl rfl

/-- Claim C3 (counterexample): a cycle that completes without raising but
returns an empty homework list reaches `continue`, which skips the
watermark update: with `current_date = 1700000000` present in the
response, the next fetch still uses the old watermark 5. -/
theorem C3_empty_success_keeps_watermark :
    (cycleTry "t" (.int 5) emptyListEnv).1 = .ok (.int 5) ∧
    (runCycle "t" (.int 5) emptyListEnv).1 = .next (.int 5) ∧
    pyLookup [("homeworks", .list []), ("current_date", .int 1700000000)]
      "current_date" = Option.some (.int 1700000000) ∧
    PyVal.int 5 ≠ PyVal.int 1700000000 := by
  refine ⟨rfl, rfl, rfl, ?_⟩
  simp

/-- Claim C3 (amended): for every cycle that runs the full success path —
fetch and validation succeed, the homework list is nonempty, and the
status notification is delivered — the next cycle's watermark is the
response's `current_date` when that key is present and the previous
watermark when it is absent. (A successful cycle with an empty list skips
the update; see the counterexample.) -/
theorem C3_watermark_advances_on_full_success (token : String) (ts : PyVal)
    (env : CycleEnv) (es : List (String × PyVal)) (hw : PyVal) (rest : List PyVal)
    (verdict : String)
    (hfetch : get_api_answer token ts env.http = .ok (.dict es))
    (hcheck : check_response (.dict es) = .ok (hw :: rest))
    (hparse : parse_status hw = .ok verdict)
    (hsend : env.statusSend = Option.none) :
    (runCycle token ts env).1 =
      .next (match pyLookup es "current_date" with
             | Option.some d => d
             | Option.none => ts) := by
  simp only [runCycle, cycleTry, hfetch, hcheck, hparse, hsend, send_message]
  cases h : pyLookup es "current_date" <;> simp [pyGet, h]

/-- Witness for the amended C3 at a fully successful concrete cycle. -/
theorem C3_watermark_advances_on_full_success_witness :
    (runCycle "t" (.int 5) successEnv).1 = .next (.int 1700000000) :=
  C3_watermark_advances_on_full_success "t" (.int 5) successEnv
    [("homeworks", .list [goodHomework]), ("current_date", .int 1700000000)]
    goodHomework []
    "Изменился статус проверки работы \"hw\". Работа проверена: ревьюеру всё понравилось. Ура!"
    rfl rfl rfl rfl

/-- Claim C5 (counterexample): the watermark can decrease: a fully
successful cycle whose server-reported `current_date` is 0 drops the
watermark from 100 to 0 before the next fetch. -/
theorem C5_watermark_can_decrease :
    (runCycle "t" (.int 100) backwardsDateEnv).1 = .next (.int 0) ∧
    (0 : Int) < 100 :=
  ⟨rfl, by decide⟩

/-- Claim C5 (amended): per cycle the watermark either stays unchanged or
becomes exactly the server-reported `current_date` of a 200 response —
never any other value — so it never decreases provided every
server-reported `current_date` is at least the current watermark; the
code itself does not enforce that the server values are non-decreasing. -/
theorem C5_watermark_changes_only_to_server_date (token : String) (ts : PyVal)
    (env : CycleEnv) (ts' : PyVal)
    (h : (runCycle token ts env).1 = .next ts') :
    (ts' = ts ∨ ∃ reason text es,
        env.http = .response 200 reason text (.dict es) ∧
        pyLookup es "current_date" = Option.some ts') ∧
    (∀ n m : Int, ts = .int n → ts' = .int m →
      (∀ d : Int, (∃ reason text es,
          env.http = .response 200 reason text (.dict es) ∧
          pyLookup es "current_date" = Option.some (.int d)) → n ≤ d) →
      n ≤ m) := by
  have hshape : ts' = ts ∨ ∃ reason text es,
      env.http = .response 200 reason text (.dict es) ∧
      pyLookup es "current_date" = Option.some ts' := by
    cases hc : cycleTry token ts env with
    | mk r evs0 =>
      cases r with
      | ok t =>
        have hout : (runCycle token ts env).1 = .next t := by
          simp only [runCycle, hc]
        rw [h] at hout
        injection hout with hout
        rw [hout]
        exact cycleTry_ok_shape token ts env t evs0 hc
      | error e =>
        rcases C9_style : env.errorSend with _ | err
        · left
          have hout : (runCycle token ts env).1 = .next ts := by
            simp only [runCycle, hc, pyFormat_ERROR_MESSAGE, C9_style, send_message]
          have h2 := hout.symm.trans h
          injection h2 with h2
          exact h2.symm
        · exfalso
          have hout : (runCycle token ts env).1 = .crash (.keyError "message") := by
            simp only [runCycle, hc, pyFormat_ERROR_MESSAGE, C9_style, send_message_fail,
              pyFormat_SEND_MESSAGE_ERROR_positional]
          exact CycleOut.noConfusion (hout.symm.trans h)
  refine ⟨hshape, ?_⟩
  intro n m hn hm hbound
  cases hshape with
  | inl heq =>
    rw [hn] at heq
    rw [hm] at heq
    injection heq with heq
    omega
  | inr hserver =>
    obtain ⟨reason, text, es, hhttp, hlook⟩ := hserver
    rw [hm] at hlook
    exact hbound m ⟨reason, text, es, hhttp, hlook⟩

/-- Witness for the amended C5 at a fully successful concrete cycle. -/
theorem C5_watermark_changes_only_to_server_date_witness :
    ((PyVal.int 1700000000 = PyVal.int 5 ∨ ∃ reason text es,
        successEnv.http = .response 200 reason text (.dict es) ∧
        pyLookup es "current_date" = Option.some (.int 1700000000)) ∧
     (∀ n m : Int, PyVal.int 5 = .int n → PyVal.int 1700000000 = .int m →
        (∀ d : Int, (∃ reason text es,
            successEnv.http = .response 200 reason text (.dict es) ∧
            pyLookup es "current_date" = Option.some (.int d)) → n ≤ d) →
        n ≤ m)) :=
  C5_watermark_changes_only_to_server_date "t" (.int 5) successEnv
    (.int 1700000000) rfl

/-- Claim C6 (code bug): when the error-notification `send_message` in the
`except` handler fails, the handler's own logging call
`logging.error(SEND_MESSAGE_ERROR.format(error))` fills named
placeholders positionally and raises `KeyError('message')`, which escapes
the loop (after the `finally` sleep) and terminates the process — the
delivery failure is not merely logged. -/
theorem C6_broken_channel_crashes_loop :
    (runCycle "t" (.int 0) brokenChannelEnv).1 = .crash (.keyError "message") ∧
    ((runCycle "t" (.int 0) brokenChannelEnv).2).getLast? =
      Option.some (Event.sleep 600) :=
  ⟨rfl, rfl⟩

end HomeworkBot
